import Mathlib

/-!
Verification development for the openr configuration module
(`openr/config/Config.cpp`): the compiled regex sets built by
`AreaConfiguration::compileRegexSet`, the per-area configuration
normalization done by `Config::populateAreaConfig`, and the validation
pipeline `Config::populateInternalDb` with its sub-checks
(`checkKvStoreConfig`, `checkSparkConfig`, ...).

Conventions of the embedding:
* C++ exceptions (`std::invalid_argument`, `std::out_of_range`) become the
  `ConfigErr` sum type and fallible code returns `Except ConfigErr _`.
* `re2::RE2::Set` is modelled by a small regular-expression engine
  (Brzozowski derivatives with simplifying constructors) over the subset of
  RE2 syntax exercised by this repository: literal characters, `.`, `*`,
  `^` and `$`.  Patterns using constructs outside the subset are treated as
  parse failures, which is the conservative modelling of `RE2::Set::Add`
  returning `-1`.  Matching is case-insensitive because `compileRegexSet`
  sets `regexOpts.set_case_sensitive(false)`, and `.` does not match a
  newline (the RE2 default).
* Thrift structs keep their field names; optional thrift fields become
  `Option`.
-/

/-- Error raised by configuration validation; models the C++ exceptions
`std::invalid_argument` and `std::out_of_range` thrown by `Config`. -/
inductive ConfigErr where
  | invalidArgument (msg : String)
  | outOfRange (msg : String)
deriving DecidableEq, Repr

/-- Abstract syntax of regular expressions, the target of our model of the
RE2 pattern compiler used by `AreaConfiguration::compileRegexSet`. -/
inductive RE where
  | emptyLang
  | eps
  | chr (c : Char)
  | dot
  | alt (r s : RE)
  | cat (r s : RE)
  | star (r : RE)
deriving DecidableEq, Repr

/-- Does the regular expression accept the empty string? -/
def nullable : RE → Bool
  | .emptyLang => false
  | .eps => true
  | .chr _ => false
  | .dot => false
  | .alt r s => nullable r || nullable s
  | .cat r s => nullable r && nullable s
  | .star _ => true

/-- Alternation with on-the-fly simplification of the empty language. -/
def mkAlt : RE → RE → RE
  | .emptyLang, s => s
  | r, .emptyLang => r
  | r, s => .alt r s

/-- Concatenation with on-the-fly simplification of the empty language and
of the empty string. -/
def mkCat : RE → RE → RE
  | .emptyLang, _ => .emptyLang
  | _, .emptyLang => .emptyLang
  | .eps, s => s
  | r, .eps => r
  | r, s => .cat r s

/-- Brzozowski derivative of a regular expression by one character.
Character comparison is via `Char.toLower` on both sides because
`compileRegexSet` always constructs its `re2::RE2::Set` with
`set_case_sensitive(false)`; `.` refuses a newline, the RE2 default. -/
def rderiv : RE → Char → RE
  | .emptyLang, _ => .emptyLang
  | .eps, _ => .emptyLang
  | .chr c, a => if a.toLower == c.toLower then .eps else .emptyLang
  | .dot, a => if a == '\n' then .emptyLang else .eps
  | .alt r s, a => mkAlt (rderiv r a) (rderiv s a)
  | .cat r s, a =>
    if nullable r then mkAlt (mkCat (rderiv r a) s) (rderiv s a)
    else mkCat (rderiv r a) s
  | .star r, a => mkCat (rderiv r a) (.star r)

/-- Whole-string match of a regular expression against a character list. -/
def reMatchList (r : RE) (cs : List Char) : Bool :=
  nullable (cs.foldl rderiv r)

/-- Parser state step for the modelled subset of RE2 syntax.  The
accumulator holds the atoms parsed so far, most recent first.  A `^`
assertion can only hold at position 0, so a `^` preceded by atoms that can
all match the empty string is dropped together with that (necessarily
empty-matching) prelude, and a `^` preceded by an atom that must consume
input makes the whole pattern unmatchable; `$` dually forces everything
after it to match the empty string.  `none` models `RE2::Set::Add`
rejecting the pattern. -/
def parseLoop : List Char → List RE → Option (List RE)
  | [], acc => some acc.reverse
  | c :: rest, acc =>
    if c == '*' then
      match acc with
      | [] => none
      | a :: as => parseLoop rest (RE.star a :: as)
    else if c == '.' then
      parseLoop rest (RE.dot :: acc)
    else if c == '^' then
      if acc.all nullable then parseLoop rest []
      else parseLoop rest [RE.emptyLang]
    else if c == '$' then
      match parseLoop rest [] with
      | none => none
      | some tailAtoms =>
        if tailAtoms.all nullable then some acc.reverse else some [RE.emptyLang]
    else if c == '(' || c == ')' || c == '[' || c == ']' || c == '|' ||
            c == '\\' || c == '+' || c == '?' ||
            c == Char.ofNat 123 || c == Char.ofNat 125 then
      none
    else
      parseLoop rest (RE.chr c :: acc)

/-- Concatenation of a list of atoms into one regular expression. -/
def catList : List RE → RE
  | [] => RE.eps
  | [r] => r
  | r :: rs => RE.cat r (catList rs)

/-- Parse one RE2 pattern string into the modelled syntax; `none` exactly
when our model of `RE2::Set::Add` rejects the pattern. -/
def parseRE (s : String) : Option RE :=
  (parseLoop s.data []).map catList

/-- Anchoring mode passed to the `re2::RE2::Set` constructor. -/
inductive Anchor where
  | unanchored
  | anchorStart
  | anchorBoth
deriving DecidableEq, Repr

/-- Model of a compiled `re2::RE2::Set`: the anchor mode fixed at
construction and the successfully added patterns, in insertion order. -/
structure RE2Set where
  anchor : Anchor
  patterns : List RE
deriving DecidableEq, Repr

/-- Matching of one compiled pattern under an anchor mode: `ANCHOR_BOTH`
requires the entire string to match, `ANCHOR_START` some prefix of it, and
unanchored any contiguous substring. -/
def matchMode (a : Anchor) (r : RE) (cs : List Char) : Bool :=
  match a with
  | .anchorBoth => reMatchList r cs
  | .anchorStart =>
    (List.range (cs.length + 1)).any (fun n => reMatchList r (cs.take n))
  | .unanchored =>
    (List.range (cs.length + 1)).any (fun i =>
      (List.range (cs.length + 1 - i)).any (fun n =>
        reMatchList r ((cs.drop i).take n)))

/-- Does the compiled set match the key?  Models `RE2::Set::Match`. -/
def re2SetMatch (s : RE2Set) (key : String) : Bool :=
  s.patterns.any (fun r => matchMode s.anchor r key.data)

/-- Add patterns one by one, failing at the first pattern the regex engine
rejects, with the error message `compileRegexSet` would throw. -/
def addPatterns : List String → Except ConfigErr (List RE)
  | [] => .ok []
  | s :: rest =>
    match parseRE s with
    | none => .error (.invalidArgument ("Failed to add regex: " ++ s))
    | some r => (addPatterns rest).map (fun rs => r :: rs)

/-- Embedding of `AreaConfiguration::compileRegexSet`: builds a
case-insensitive `RE2::Set` with `ANCHOR_BOTH`; an empty pattern list gets
the deliberately unmatchable pattern `"a^"` (the source comments "make this
regex set unmatchable"); any pattern the engine rejects raises
`std::invalid_argument` naming it. -/
def compileRegexSet (strings : List String) : Except ConfigErr RE2Set :=
  let base : List RE :=
    if strings.isEmpty then
      match parseRE "a^" with
      | some r => [r]
      | none => []
    else []
  (addPatterns strings).map
    (fun pats => { anchor := Anchor.anchorBoth, patterns := base ++ pats })

instance {ε α : Type} [DecidableEq ε] [DecidableEq α] : DecidableEq (Except ε α) :=
  fun a b =>
    match a, b with
    | .ok x, .ok y => decidable_of_iff (x = y) (by simp)
    | .error e, .error f => decidable_of_iff (e = f) (by simp)
    | .ok _, .error _ => isFalse (by simp)
    | .error _, .ok _ => isFalse (by simp)


/-! ## Thrift configuration data model

Lean counterparts of the thrift structs read by `Config`.  Field names
follow the thrift fields referenced by `Config.cpp`; optional fields are
`Option`.  Thrift enums arrive from deserialization as raw integers (an
out-of-range integer is representable, which is exactly what the
`enumName(...)` validity checks in the source guard against), so enum
fields are `Int` together with modelled validity predicates and named
constants for the values `Config.cpp` mentions. -/

/-- KvStore flood rate limit parameters. -/
structure KvstoreFloodRate where
  flood_msg_per_sec : Int
  flood_msg_burst_size : Int
deriving DecidableEq, Repr

/-- KvStore configuration section, restricted to the fields
`checkKvStoreConfig` reads. -/
structure KvstoreConfig where
  key_ttl_ms : Int
  flood_rate : Option KvstoreFloodRate
deriving DecidableEq, Repr

/-- Decision module configuration. -/
structure DecisionConfig where
  debounce_min_ms : Int
  debounce_max_ms : Int
deriving DecidableEq, Repr

/-- Step detector configuration inside the Spark config. -/
structure StepDetectorConf where
  lower_threshold : Int
  upper_threshold : Int
  fast_window_size : Int
  slow_window_size : Int
deriving DecidableEq, Repr

/-- Spark (neighbor discovery) configuration. -/
structure SparkConfig where
  neighbor_discovery_port : Int
  hello_time_s : Int
  fastinit_hello_time_ms : Int
  keepalive_time_s : Int
  hold_time_s : Int
  graceful_restart_time_s : Int
  step_detector_conf : StepDetectorConf
deriving DecidableEq, Repr

/-- Monitor configuration. -/
structure MonitorConfig where
  max_event_log : Int
deriving DecidableEq, Repr

/-- Link monitor configuration. -/
structure LinkMonitorConfig where
  linkflap_initial_backoff_ms : Int
  linkflap_max_backoff_ms : Int
deriving DecidableEq, Repr

/-- An MPLS label range. -/
structure LabelRange where
  start_label : Int
  end_label : Int
deriving DecidableEq, Repr

/-- Per-address-family prepend label ranges. -/
structure PrependLabelRanges where
  v4 : LabelRange
  v6 : LabelRange
deriving DecidableEq, Repr

/-- Segment-routing node label configuration. -/
structure SrNodeLabel where
  sr_node_label_type : Int
  node_segment_label_range : Option LabelRange
  node_segment_label : Option Int
deriving DecidableEq, Repr

/-- Segment-routing adjacency label configuration. -/
structure SrAdjLabel where
  sr_adj_label_type : Int
  adj_label_range : Option LabelRange
deriving DecidableEq, Repr

/-- Top-level segment routing configuration. -/
structure SegmentRoutingConfig where
  prepend_label_ranges : Option PrependLabelRanges
  sr_adj_label : Option SrAdjLabel
deriving DecidableEq, Repr

/-- Per-area configuration, restricted to the fields `Config.cpp` reads. -/
structure AreaConfig where
  area_id : String
  neighbor_regexes : List String
  import_policy_name : Option String
  area_sr_node_label : Option SrNodeLabel
  sr_adj_label : Option SrAdjLabel
  prepend_label_ranges : Option PrependLabelRanges
deriving DecidableEq, Repr

/-- Prefix allocation configuration.  `seed_pfx` and `allocate_pfx_len`
model the thrift fields whose names the source spells with the word
written out in full. -/
structure PrefixAllocationConfig where
  prefix_allocation_mode : Int
  seed_pfx : Option String
  allocate_pfx_len : Option Int
deriving DecidableEq, Repr

/-- VIP service configuration. -/
structure VipServiceConfig where
  ingress_policy : Option String
deriving DecidableEq, Repr

/-- One configured BGP peer. -/
structure BgpPeer where
  peer_addr : String
  add_path : Option Int
deriving DecidableEq, Repr

/-- BGP configuration. -/
structure BgpConfig where
  peers : List BgpPeer
deriving DecidableEq, Repr

/-- BGP route translation configuration. -/
structure BgpTranslationConfig where
  disable_legacy_translation : Bool
  enable_openr_to_bgp : Bool
  enable_bgp_to_openr : Bool
deriving DecidableEq, Repr

/-- Modelled: the default-constructed `thrift::BgpRouteTranslationConfig()`
that `checkBgpPeeringConfig` installs when BGP peering is enabled but no
translation config was given (thrift bool fields default to false). -/
def defaultBgpTranslationConfig : BgpTranslationConfig :=
  { disable_legacy_translation := false
    enable_openr_to_bgp := false
    enable_bgp_to_openr := false }

/-- Thrift server (TLS) configuration. -/
structure ThriftServerConfig where
  x509_ca_path : Option String
  x509_cert_path : Option String
  ecc_curve_name : Option String
  x509_key_path : Option String
deriving DecidableEq, Repr

/-- Area policies: the set of names of defined route propagation policy
objects (`areaPolicies->filters()->routePropagationPolicy()->objects()`),
which is all `Config.cpp` consults of the policy structure. -/
structure AreaPolicies where
  routePropagationPolicy : Option (List String)
deriving DecidableEq, Repr

/-- Top-level openr configuration struct, restricted to the fields read by
`Config::populateInternalDb` and its sub-checks.  The various
`isXyzEnabled()` accessors of the C++ class read `enable_*` flags of this
struct. -/
structure OpenrConfig where
  areas : List AreaConfig
  area_policies : Option AreaPolicies
  prefix_forwarding_type : Int
  prefix_forwarding_algorithm : Int
  ip_tos : Option Int
  route_delete_delay_ms : Int
  kvstore_config : KvstoreConfig
  decision_config : DecisionConfig
  spark_config : SparkConfig
  monitor_config : MonitorConfig
  link_monitor_config : LinkMonitorConfig
  segment_routing_config : Option SegmentRoutingConfig
  enable_v4 : Bool
  enable_segment_routing : Bool
  enable_prefix_allocation : Bool
  prefix_allocation_config : Option PrefixAllocationConfig
  enable_vip_service : Bool
  vip_service_config : Option VipServiceConfig
  enable_bgp_peering : Bool
  bgp_config : Option BgpConfig
  bgp_translation_config : Option BgpTranslationConfig
  enable_watchdog : Bool
  watchdog_config : Option Unit
  enable_secure_thrift_server : Bool
  thrift_server : ThriftServerConfig
  eor_time_s : Option Int
deriving DecidableEq, Repr

/-! ## Constants and modelled external helpers -/

/-- Modelled from the spec: `Constants::kTtlInfinity`, the infinite-TTL
sentinel carried by permanent entries ("`ttlMs` ... or an infinite sentinel
for permanent entries").  `Constants.h` is not under `src/`; the
implementation uses `INT32_MIN`.  Only its identity as a distinguished
sentinel value matters to the checks below. -/
def kTtlInfinity : Int := -2147483648

/-- Modelled from the spec: `Constants::kDefaultArea`, the well-known
default area id inserted when the configured area list is empty.
`Constants.h` is not under `src/`; the implementation uses `"0"`. -/
def kDefaultArea : String := "0"

/-- Modelled: `thrift::PrefixForwardingType` enum values (`IP`,
`SR_MPLS`). -/
def kPrefixForwardingTypeSrMpls : Int := 1

/-- Modelled: `enumName` succeeding on a `PrefixForwardingType` raw value. -/
def validPrefixForwardingType (t : Int) : Bool := t == 0 || t == 1

/-- Modelled: `thrift::PrefixForwardingAlgorithm::KSP2_ED_ECMP`. -/
def kPrefixForwardingAlgoKsp2EdEcmp : Int := 1

/-- Modelled: `enumName` succeeding on a `PrefixForwardingAlgorithm` raw
value. -/
def validPrefixForwardingAlgorithm (t : Int) : Bool := t == 0 || t == 1

/-- Modelled: `thrift::SegmentRoutingNodeLabelType::AUTO`. -/
def kSrNodeLabelTypeAuto : Int := 0

/-- Modelled: `thrift::SegmentRoutingAdjLabelType::AUTO_IFINDEX`. -/
def kSrAdjLabelTypeAutoIfIndex : Int := 1

/-- Modelled: `thrift::AddPath::RECEIVE`. -/
def kAddPathReceive : Int := 1

/-- Modelled: `thrift::PrefixAllocationMode::DYNAMIC_ROOT_NODE`. -/
def kPrefixAllocationModeDynamicRoot : Int := 1

/-- Modelled: `enumName` succeeding on a `PrefixAllocationMode` raw value
(`DYNAMIC_LEAF_NODE`, `DYNAMIC_ROOT_NODE`, `STATIC`). -/
def validPrefixAllocationMode (m : Int) : Bool := m == 0 || m == 1 || m == 2

/-- Modelled: openr's `isMplsLabelValid` (`openr/common`, not under
`src/`): a valid MPLS label fits in 20 bits. -/
def isMplsLabelValid (label : Int) : Bool := 0 ≤ label && label < 1048576

/-- Modelled: openr's `isLabelRangeValid` (not under `src/`): both
endpoints are valid labels and the range is non-empty. -/
def isLabelRangeValid (r : LabelRange) : Bool :=
  isMplsLabelValid r.start_label && isMplsLabelValid r.end_label &&
    r.start_label ≤ r.end_label

/-- Modelled: `folly::IPAddress::createNetwork` reduced to what the
validation observes: split at `/`, classify v4 by the absence of `:`, read
the mask length (defaulting to the full address length when absent), and
raise on malformed input.  Returns `(isV4, maskLength)`. -/
def createNetwork (s : String) : Except ConfigErr (Bool × Int) :=
  match s.splitOn "/" with
  | [addr] =>
    if addr.isEmpty then .error (.invalidArgument ("Invalid network: " ++ s))
    else if addr.contains ':' then .ok (false, 128)
    else .ok (true, 32)
  | [addr, len] =>
    if addr.isEmpty then .error (.invalidArgument ("Invalid network: " ++ s))
    else
      match len.toNat? with
      | none => .error (.invalidArgument ("Invalid network: " ++ s))
      | some n =>
        if addr.contains ':' then .ok (false, (n : Int)) else .ok (true, (n : Int))
  | _ => .error (.invalidArgument ("Invalid network: " ++ s))

/-- Modelled: `folly::IPAddress::isLoopback` on the textual peer addresses
a BGP config carries: `127.0.0.0/8` v4 addresses and `::1`. -/
def follyIsLoopback (s : String) : Bool :=
  s.startsWith "127." || s == "::1"

/-! ## Validation checks (`Config.cpp`) -/

/-- Embedding of `Config::checkKvStoreConfig`: flood rate parameters must
be positive when a flood rate is set, and the default key TTL must not be
the infinite sentinel. -/
def checkKvStoreConfig (k : KvstoreConfig) : Except ConfigErr Unit :=
  match k.flood_rate with
  | some fr =>
    if fr.flood_msg_per_sec ≤ 0 then
      .error (.outOfRange "kvstore flood_msg_per_sec should be > 0")
    else if fr.flood_msg_burst_size ≤ 0 then
      .error (.outOfRange "kvstore flood_msg_burst_size should be > 0")
    else if k.key_ttl_ms == kTtlInfinity then
      .error (.outOfRange "kvstore key_ttl_ms should be a finite number")
    else .ok ()
  | none =>
    if k.key_ttl_ms == kTtlInfinity then
      .error (.outOfRange "kvstore key_ttl_ms should be a finite number")
    else .ok ()

/-- Embedding of `Config::checkDecisionConfig`. -/
def checkDecisionConfig (d : DecisionConfig) : Except ConfigErr Unit :=
  if d.debounce_min_ms > d.debounce_max_ms then
    .error (.invalidArgument
      "decision_config.debounce_min_ms should be <= decision_config.debounce_max_ms")
  else .ok ()

/-- Embedding of `Config::checkSparkConfig`: the chain of range and
consistency checks on the neighbor discovery timers, in source order. -/
def checkSparkConfig (s : SparkConfig) : Except ConfigErr Unit :=
  if s.neighbor_discovery_port ≤ 0 || s.neighbor_discovery_port > 65535 then
    .error (.outOfRange "neighbor_discovery_port should be in range [0, 65535]")
  else if s.hello_time_s ≤ 0 then
    .error (.outOfRange "hello_time_s should be > 0")
  else if s.fastinit_hello_time_ms ≤ 0 then
    .error (.outOfRange "fastinit_hello_time_ms should be > 0")
  else if s.fastinit_hello_time_ms > 1000 * s.hello_time_s then
    .error (.invalidArgument "fastinit_hello_time_ms should be <= hold_time_s * 1000")
  else if s.keepalive_time_s ≤ 0 then
    .error (.outOfRange "keepalive_time_s should be > 0")
  else if s.keepalive_time_s > s.hold_time_s then
    .error (.invalidArgument "keepalive_time_s should be <= hold_time_s")
  else if s.hold_time_s ≤ 0 then
    .error (.outOfRange "hold_time_s should be > 0")
  else if s.graceful_restart_time_s ≤ 0 then
    .error (.outOfRange "graceful_restart_time_s should be > 0")
  else if s.graceful_restart_time_s < 3 * s.keepalive_time_s then
    .error (.invalidArgument
      "graceful_restart_time_s should be >= 3 * keepalive_time_s")
  else if s.step_detector_conf.lower_threshold < 0 ||
      s.step_detector_conf.upper_threshold < 0 ||
      s.step_detector_conf.lower_threshold ≥ s.step_detector_conf.upper_threshold then
    .error (.invalidArgument
      "step_detector_conf.lower_threshold should be < step_detector_conf.upper_threshold, and they should be >= 0")
  else if s.step_detector_conf.fast_window_size < 0 ||
      s.step_detector_conf.slow_window_size < 0 ||
      s.step_detector_conf.fast_window_size > s.step_detector_conf.slow_window_size then
    .error (.invalidArgument
      "step_detector_conf.fast_window_size should be <= step_detector_conf.slow_window_size, and they should be >= 0")
  else if s.step_detector_conf.lower_threshold < 0 ||
      s.step_detector_conf.upper_threshold < 0 ||
      s.step_detector_conf.lower_threshold ≥ s.step_detector_conf.upper_threshold then
    .error (.invalidArgument
      "step_detector_conf.lower_threshold should be < step_detector_conf.upper_threshold")
  else .ok ()

/-- Embedding of `Config::checkMonitorConfig`. -/
def checkMonitorConfig (m : MonitorConfig) : Except ConfigErr Unit :=
  if m.max_event_log < 0 then
    .error (.outOfRange "monitor_max_event_log should be >= 0")
  else .ok ()

/-- Embedding of `Config::checkLinkMonitorConfig`. -/
def checkLinkMonitorConfig (l : LinkMonitorConfig) : Except ConfigErr Unit :=
  if l.linkflap_initial_backoff_ms < 0 then
    .error (.outOfRange "linkflap_initial_backoff_ms should be >= 0")
  else if l.linkflap_max_backoff_ms < 0 then
    .error (.outOfRange "linkflap_max_backoff_ms should be >= 0")
  else if l.linkflap_initial_backoff_ms > l.linkflap_max_backoff_ms then
    .error (.outOfRange
      "linkflap_initial_backoff_ms should be < linkflap_max_backoff_ms")
  else .ok ()

/-- Embedding of `Config::checkPrependLabelConfig` for one area. -/
def checkPrependLabelConfig (a : AreaConfig) : Except ConfigErr Unit :=
  match a.prepend_label_ranges with
  | none => .ok ()
  | some pr =>
    if !isLabelRangeValid pr.v4 then
      .error (.invalidArgument
        ("v4: prepend label range is invalid for area id " ++ a.area_id))
    else if !isLabelRangeValid pr.v6 then
      .error (.invalidArgument
        ("v6: prepend label range is invalid for area id " ++ a.area_id))
    else .ok ()

/-- Embedding of `Config::checkAdjacencyLabelConfig` for one area. -/
def checkAdjacencyLabelConfig (a : AreaConfig) : Except ConfigErr Unit :=
  match a.sr_adj_label with
  | none => .ok ()
  | some adj =>
    if adj.sr_adj_label_type == kSrAdjLabelTypeAutoIfIndex then
      match adj.adj_label_range with
      | none =>
        .error (.invalidArgument
          ("label range for adjacency labels is not configured for area id " ++
            a.area_id))
      | some lr =>
        if !isLabelRangeValid lr then
          .error (.invalidArgument
            ("label range for adjacency labels is invalid for area id " ++
              a.area_id))
        else .ok ()
    else .ok ()

/-- Embedding of `Config::checkNodeSegmentLabelConfig` for one area. -/
def checkNodeSegmentLabelConfig (a : AreaConfig) : Except ConfigErr Unit :=
  match a.area_sr_node_label with
  | none => .ok ()
  | some sr =>
    if sr.sr_node_label_type == kSrNodeLabelTypeAuto then
      match sr.node_segment_label_range with
      | none =>
        .error (.invalidArgument
          ("node segment label range is not configured for area id: " ++
            a.area_id))
      | some lr =>
        if !isLabelRangeValid lr then
          .error (.invalidArgument
            ("node segment label range is invalid for area config id: " ++
              a.area_id))
        else .ok ()
    else
      match sr.node_segment_label with
      | none =>
        .error (.invalidArgument
          ("static node segment label is not configured for area config id: " ++
            a.area_id))
      | some l =>
        if !isMplsLabelValid l then
          .error (.invalidArgument
            ("node segment label is invalid for area config id: " ++ a.area_id))
        else .ok ()

/-- Normalization performed on each area by `Config::populateAreaConfig`:
an empty `neighbor_regexes` list becomes the single match-all pattern
`".*"`. -/
def normalizeArea (a : AreaConfig) : AreaConfig :=
  if a.neighbor_regexes.isEmpty then { a with neighbor_regexes := [".*"] } else a

/-- Check on one condition, raising the given error when it holds
(`if cond then throw` in the source). -/
def guardCfg (bad : Bool) (e : ConfigErr) : Except ConfigErr Unit :=
  if bad then .error e else .ok ()

/-- Import policy existence check from the `populateAreaConfig` loop: a
configured `import_policy_name` must be among the defined route
propagation policy objects. -/
def checkImportPolicy (pol : Option (List String)) (a : AreaConfig) :
    Except ConfigErr Unit :=
  match a.import_policy_name with
  | none => .ok ()
  | some name =>
    match pol with
    | none =>
      .error (.invalidArgument ("No area policy definition found for " ++ name))
    | some objs =>
      if objs.contains name then .ok ()
      else .error (.invalidArgument ("No area policy definition found for " ++ name))

/-- Loop body of `Config::populateAreaConfig`: normalize each area, check
its import policy against the defined route propagation policies, insert
it into `areaConfigs_` rejecting duplicate ids, then run the three label
checks.  Returns the normalized areas and the accumulated id-keyed map. -/
def processAreas (pol : Option (List String)) :
    List AreaConfig → List (String × AreaConfig) →
    Except ConfigErr (List AreaConfig × List (String × AreaConfig))
  | [], amap => .ok ([], amap)
  | a0 :: rest, amap =>
    checkImportPolicy pol (normalizeArea a0) >>= fun _ =>
    guardCfg (amap.any (fun kv => kv.fst == (normalizeArea a0).area_id))
      (.invalidArgument ("Duplicate area config id: " ++ (normalizeArea a0).area_id)) >>= fun _ =>
    checkNodeSegmentLabelConfig (normalizeArea a0) >>= fun _ =>
    checkAdjacencyLabelConfig (normalizeArea a0) >>= fun _ =>
    checkPrependLabelConfig (normalizeArea a0) >>= fun _ =>
    processAreas pol rest (amap ++ [((normalizeArea a0).area_id, normalizeArea a0)]) >>= fun pr =>
    .ok (normalizeArea a0 :: pr.fst, pr.snd)

/-- The default `thrift::AreaConfig` inserted by `populateAreaConfig` when
no area is configured: only `area_id` is set, every other field keeps its
thrift default. -/
def defaultAreaConfig : AreaConfig :=
  { area_id := kDefaultArea
    neighbor_regexes := []
    import_policy_name := none
    area_sr_node_label := none
    sr_adj_label := none
    prepend_label_ranges := none }

/-- Embedding of `Config::populateAreaConfig`: substitute the single
default area when the area list is empty, then process every area.
Returns the configuration with normalized areas together with the
`areaConfigs_` map. -/
def populateAreaConfig (cfg : OpenrConfig) :
    Except ConfigErr (OpenrConfig × List (String × AreaConfig)) :=
  processAreas (cfg.area_policies.bind (fun p => p.routePropagationPolicy))
      (if cfg.areas.isEmpty then [defaultAreaConfig] else cfg.areas) [] >>= fun pr =>
    .ok ({ cfg with areas := pr.fst }, pr.snd)

/-- Result of prefix allocation validation
(`seedPfx`, `allocationPfxLen` digested). -/
structure PrefixAllocationParams where
  isV4 : Bool
  seedLen : Int
  allocLen : Int
deriving DecidableEq, Repr

/-- Embedding of `Config::createPrefixAllocationParams`. -/
def createPrefixAllocationParams (seedPfxStr : String) (allocationPfxLen : Int) :
    Except ConfigErr PrefixAllocationParams :=
  if seedPfxStr.isEmpty || allocationPfxLen == 0 then
    .error (.invalidArgument "seed prefix and allocate length must be filled.")
  else
    match createNetwork seedPfxStr with
    | .error e => .error e
    | .ok (v4, len) =>
      if v4 && (allocationPfxLen ≤ len || allocationPfxLen > 32) then
        .error (.outOfRange "invalid allocate length, valid range = (seed, 32]")
      else if !v4 && (allocationPfxLen ≤ len || allocationPfxLen > 128) then
        .error (.outOfRange "invalid allocate length, valid range = (seed, 128]")
      else .ok { isV4 := v4, seedLen := len, allocLen := allocationPfxLen }

/-- Embedding of `Config::checkPrefixAllocationConfig`: present only when
prefix allocation is enabled; in `DYNAMIC_ROOT_NODE` mode the seed prefix
is digested into allocation params (`some`), in the other modes the seed
fields must be empty and no params are produced (`none`). -/
def checkPrefixAllocationConfig (cfg : OpenrConfig) :
    Except ConfigErr (Option PrefixAllocationParams) :=
  match cfg.prefix_allocation_config with
  | none =>
    .error (.invalidArgument
      "enable_prefix_allocation = true, but prefix_allocation_config is empty")
  | some pa =>
    if !validPrefixAllocationMode pa.prefix_allocation_mode then
      .error (.invalidArgument "invalid prefix_allocation_mode")
    else
      let seedPfx := pa.seed_pfx.getD ""
      let allocLen := pa.allocate_pfx_len.getD 0
      if pa.prefix_allocation_mode == kPrefixAllocationModeDynamicRoot then
        match createPrefixAllocationParams seedPfx allocLen with
        | .error e => .error e
        | .ok params =>
          if params.isV4 && !cfg.enable_v4 then
            .error (.invalidArgument "v4 seed detected, but enable_v4 = false")
          else .ok (some params)
      else
        if !seedPfx.isEmpty || allocLen > 0 then
          .error (.invalidArgument
            "prefix_allocation_mode != DYNAMIC_ROOT_NODE, seed fields must be empty")
        else .ok none

/-- Embedding of `Config::checkVipServiceConfig`: when the VIP service is
enabled its config must exist and a configured ingress policy must be a
defined route propagation policy. -/
def checkVipServiceConfig (cfg : OpenrConfig) : Except ConfigErr Unit :=
  if cfg.enable_vip_service then
    match cfg.vip_service_config with
    | none =>
      .error (.invalidArgument "enable_vip_service = true, but vip_service_config is empty")
    | some v =>
      match v.ingress_policy with
      | none => .ok ()
      | some polName =>
        match cfg.area_policies.bind (fun p => p.routePropagationPolicy) with
        | none =>
          .error (.invalidArgument ("No area policy definition found for " ++ polName))
        | some objs =>
          if objs.contains polName then .ok ()
          else .error (.invalidArgument ("No area policy definition found for " ++ polName))
  else .ok ()

/-- The BGP peers scanned by `checkBgpPeeringConfig`: the configured
peers, when BGP peering is enabled and a BGP config exists. -/
def bgpPeersOf (cfg : OpenrConfig) : List BgpPeer :=
  if cfg.enable_bgp_peering then
    (match cfg.bgp_config with | some b => b.peers | none => [])
  else []

/-- The translation-config mutation of `checkBgpPeeringConfig`: when BGP
peering is enabled but no translation config is set, install the default
one. -/
def fillBgpTranslation (cfg : OpenrConfig) : OpenrConfig :=
  if cfg.enable_bgp_peering && cfg.bgp_translation_config.isNone then
    { cfg with bgp_translation_config := some defaultBgpTranslationConfig }
  else cfg

/-- Final section of `checkBgpPeeringConfig`: validate the (by now
present) BGP translation config. -/
def bgpTranslationStep (cfg1 : OpenrConfig) : Except ConfigErr OpenrConfig :=
  if cfg1.enable_bgp_peering then
    match cfg1.bgp_translation_config with
    | some bt =>
      if bt.disable_legacy_translation &&
          (!bt.enable_openr_to_bgp || !bt.enable_bgp_to_openr) then
        .error (.invalidArgument
          "Legacy translation can be disabled only when new translation is enabled")
      else .ok cfg1
    | none => .ok cfg1
  else .ok cfg1

/-- Embedding of `Config::checkBgpPeeringConfig`.  It may mutate the
configuration (installing a default BGP translation config), so it returns
the updated configuration. -/
def checkBgpPeeringConfig (cfg : OpenrConfig) : Except ConfigErr OpenrConfig :=
  if cfg.enable_bgp_peering && cfg.bgp_config.isNone then
    .error (.invalidArgument "enable_bgp_peering = true, but bgp_config is empty")
  else if (bgpPeersOf cfg).any (fun peer =>
      follyIsLoopback peer.peer_addr && peer.add_path == some kAddPathReceive &&
        !cfg.enable_segment_routing) then
    .error (.invalidArgument
      "segment routing should be congfigured when BGP add_path is configured")
  else
    bgpTranslationStep (fillBgpTranslation cfg)

/-- Embedding of `Config::checkThriftServerConfig`.  The file system is
modelled as the list of existing paths, passed in explicitly. -/
def checkThriftServerConfig (fsPaths : List String) (t : ThriftServerConfig) :
    Except ConfigErr Unit :=
  match t.x509_ca_path, t.x509_cert_path, t.ecc_curve_name with
  | some ca, some cert, some _ =>
    if !(fsPaths.contains ca) || !(fsPaths.contains cert) then
      .error (.invalidArgument
        "x509_ca_path or x509_cert_path is specified in the config but not found in the disk.")
    else
      match t.x509_key_path with
      | some key =>
        if fsPaths.contains key then .ok ()
        else
          .error (.invalidArgument
            "x509_key_path is specified in the config but not found in the disk.")
      | none => .ok ()
  | _, _, _ =>
    .error (.invalidArgument
      "enable_secure_thrift_server = true, but x509_ca_path, x509_cert_path or ecc_curve_name is empty.")

/-- Embedding of `Config::checkSegmentRoutingConfig`: when a top-level
segment routing config exists, its prepend label ranges and its adjacency
label range (in `AUTO_IFINDEX` mode) must be valid. -/
def checkSegmentRoutingConfig (sr : Option SegmentRoutingConfig) : Except ConfigErr Unit := do
  match sr with
  | none => Except.ok ()
  | some src0 =>
    (match src0.prepend_label_ranges with
     | none => Except.ok ()
     | some pr =>
       if !isLabelRangeValid pr.v4 then
         Except.error (.invalidArgument "v4: prepend label range is invalid")
       else if !isLabelRangeValid pr.v6 then
         Except.error (.invalidArgument "v6: prepend label range is invalid")
       else Except.ok ())
    (match src0.sr_adj_label with
     | none => Except.ok ()
     | some adj =>
       if adj.sr_adj_label_type == kSrAdjLabelTypeAutoIfIndex then
         match adj.adj_label_range with
         | none =>
           Except.error (.invalidArgument
             "label range for adjacency labels is not configured")
         | some lr =>
           if !isLabelRangeValid lr then
             Except.error (.invalidArgument
               "label range for adjacency labels is invalid")
           else Except.ok ()
       else Except.ok ())

/-- The fully validated state a successful `Config` construction exposes:
the (possibly normalized) configuration struct plus the derived
`areaConfigs_` map and `prefixAllocationParams_`. -/
structure ConfigState where
  config : OpenrConfig
  areaConfigs : List (String × AreaConfig)
  prefixAllocationParams : Option PrefixAllocationParams
deriving DecidableEq, Repr

/-- Embedding of `Config::populateInternalDb`, the whole validation
pipeline run by the `Config` constructor after deserialization: area
normalization and checks, prefix forwarding checks, IP-TOS range, mutual
exclusion of BGP and VIP, watchdog presence, route delete delay, KvStore,
Decision, Spark, Monitor, LinkMonitor and SegmentRouting checks, prefix
allocation, VIP service, BGP peering (with its config mutation), secure
thrift server, and finally the implicit `eor_time_s` default. -/
def populateInternalDb (fsPaths : List String) (cfg0 : OpenrConfig) :
    Except ConfigErr ConfigState := do
  let (cfg, amap) ← populateAreaConfig cfg0
  guardCfg (!(validPrefixForwardingType cfg.prefix_forwarding_type &&
      validPrefixForwardingAlgorithm cfg.prefix_forwarding_algorithm))
    (.invalidArgument "invalid prefix_forwarding_type or prefix_forwarding_algorithm")
  guardCfg (cfg.prefix_forwarding_algorithm == kPrefixForwardingAlgoKsp2EdEcmp &&
      cfg.prefix_forwarding_type != kPrefixForwardingTypeSrMpls)
    (.invalidArgument "prefix_forwarding_type must be set to SR_MPLS for KSP2_ED_ECMP")
  guardCfg (match cfg.ip_tos with
    | some t => decide (t < 0) || decide (256 ≤ t)
    | none => false)
    (.outOfRange "ip_tos must be greater or equal to 0 and less than 256")
  guardCfg (cfg.enable_bgp_peering && cfg.enable_vip_service)
    (.invalidArgument "Bgp Peering and Vip Service can not be both enabled")
  guardCfg (cfg.enable_watchdog && cfg.watchdog_config.isNone)
    (.invalidArgument "enable_watchdog = true, but watchdog_config is empty")
  guardCfg (decide (cfg.route_delete_delay_ms < 0))
    (.invalidArgument "Route delete duration must be >= 0ms")
  checkKvStoreConfig cfg.kvstore_config
  checkDecisionConfig cfg.decision_config
  checkSparkConfig cfg.spark_config
  checkMonitorConfig cfg.monitor_config
  checkLinkMonitorConfig cfg.link_monitor_config
  checkSegmentRoutingConfig cfg.segment_routing_config
  let pap ← (if cfg.enable_prefix_allocation then do
      guardCfg (decide (1 < amap.length))
        (.invalidArgument "prefix_allocation only support single area config")
      checkPrefixAllocationConfig cfg
    else .ok none)
  checkVipServiceConfig cfg
  let cfg2 ← checkBgpPeeringConfig cfg
  (if cfg2.enable_secure_thrift_server then
    checkThriftServerConfig fsPaths cfg2.thrift_server
  else .ok ())
  let cfg3 := if cfg2.eor_time_s.isNone then
    { cfg2 with eor_time_s := some (3 * cfg2.spark_config.keepalive_time_s) }
  else cfg2
  .ok { config := cfg3, areaConfigs := amap, prefixAllocationParams := pap }

/-! ## FilterEngine matching (spec-modelled) and sample configurations -/

/-- Combinator of a subscription/dump filter (`thrift::FilterOperator`). -/
inductive FilterOperator where
  | OR
  | AND
deriving DecidableEq, Repr

/-- Modelled from the spec: the FilterEngine / `KvStoreFilters` key and
originator matching, whose implementation is not under `src/` (only its
callers and tests are).  Per the spec, "an entry matches if, combined per
`combinator`, its key matches at least one pattern AND/OR its originator
is in the set (empty pattern set matches every key; empty originator set
matches every originator)", and key patterns are prefix matches ("regex
`key3` is a prefix match"). -/
def filterMatches (keyPtns : List String) (origIds : List String)
    (oper : FilterOperator) (key orig : String) : Bool :=
  let keyOk := keyPtns.isEmpty || keyPtns.any (fun p => p.data.isPrefixOf key.data)
  let origOk := origIds.isEmpty || origIds.contains orig
  match oper with
  | .AND => keyOk && origOk
  | .OR => keyOk || origOk

/-- The store contents of the spec's filter scenario (and of the
`KvStoreApis` test): key, originator pairs. -/
def kvStoreScenario : List (String × String) :=
  [("key3", "node3"), ("key33", "node33"), ("key333", "node33")]

/-- A spark config whose timers satisfy every `checkSparkConfig`
condition; used to build concrete witnesses. -/
def sampleSparkConfig : SparkConfig :=
  { neighbor_discovery_port := 6666
    hello_time_s := 20
    fastinit_hello_time_ms := 500
    keepalive_time_s := 2
    hold_time_s := 10
    graceful_restart_time_s := 30
    step_detector_conf :=
      { lower_threshold := 2
        upper_threshold := 5
        fast_window_size := 10
        slow_window_size := 60 } }

/-- One ordinary area used by the sample configuration. -/
def sampleArea : AreaConfig :=
  { area_id := "area1"
    neighbor_regexes := ["rsw.*"]
    import_policy_name := none
    area_sr_node_label := none
    sr_adj_label := none
    prepend_label_ranges := none }

/-- A configuration that passes every check of `populateInternalDb`;
concrete witness input. -/
def sampleConfig : OpenrConfig :=
  { areas := [sampleArea]
    area_policies := none
    prefix_forwarding_type := 0
    prefix_forwarding_algorithm := 0
    ip_tos := some 192
    route_delete_delay_ms := 1000
    kvstore_config := { key_ttl_ms := 300000, flood_rate := none }
    decision_config := { debounce_min_ms := 10, debounce_max_ms := 250 }
    spark_config := sampleSparkConfig
    monitor_config := { max_event_log := 100 }
    link_monitor_config :=
      { linkflap_initial_backoff_ms := 1000, linkflap_max_backoff_ms := 60000 }
    segment_routing_config := none
    enable_v4 := false
    enable_segment_routing := false
    enable_prefix_allocation := false
    prefix_allocation_config := none
    enable_vip_service := false
    vip_service_config := none
    enable_bgp_peering := false
    bgp_config := none
    bgp_translation_config := none
    enable_watchdog := false
    watchdog_config := none
    enable_secure_thrift_server := false
    thrift_server :=
      { x509_ca_path := none
        x509_cert_path := none
        ecc_curve_name := none
        x509_key_path := none }
    eor_time_s := none }

/-- The state `populateInternalDb` produces from `sampleConfig`. -/
def sampleState : ConfigState :=
  { config := { sampleConfig with eor_time_s := some 6 }
    areaConfigs := [("area1", sampleArea)]
    prefixAllocationParams := none }


/-! ## Helper lemmas -/

theorem exceptBind_ok {α β : Type} {e : Except ConfigErr α}
    {f : α → Except ConfigErr β} {b : β} (h : e >>= f = .ok b) :
    ∃ a, e = .ok a ∧ f a = .ok b := by
  cases e with
  | ok a => exact ⟨a, rfl, h⟩
  | error e' => simp [Bind.bind, Except.bind] at h

theorem guardCfg_ok {b : Bool} {e : ConfigErr} {u : Unit}
    (h : guardCfg b e = .ok u) : b = false := by
  cases b with
  | false => rfl
  | true => simp [guardCfg] at h

theorem foldl_rderiv_emptyLang (cs : List Char) :
    cs.foldl rderiv RE.emptyLang = RE.emptyLang := by
  induction cs with
  | nil => rfl
  | cons c cs ih => simpa [rderiv] using ih

theorem reMatchList_emptyLang (cs : List Char) :
    reMatchList RE.emptyLang cs = false := by
  simp [reMatchList, foldl_rderiv_emptyLang, nullable]

theorem rderiv_star_dot {c : Char} (h : ¬ c = '\n') :
    rderiv (RE.star RE.dot) c = RE.star RE.dot := by
  simp [rderiv, h, mkCat]

theorem reMatchList_star_dot {cs : List Char} (h : ∀ c ∈ cs, ¬ c = '\n') :
    reMatchList (RE.star RE.dot) cs = true := by
  induction cs with
  | nil => rfl
  | cons c cs ih =>
    have hc := h c (by simp)
    unfold reMatchList
    rw [List.foldl_cons, rderiv_star_dot hc]
    exact ih (fun d hd => h d (by simp [hd]))

theorem toLower_eq_newline {c : Char} : c.toLower = '\n' ↔ c = '\n' := by
  have hdef : c.toLower =
      if c.toNat ≥ 65 ∧ c.toNat ≤ 90 then Char.ofNat (c.toNat + 32) else c := rfl
  constructor
  · intro h
    rw [hdef] at h
    by_cases hcond : c.toNat ≥ 65 ∧ c.toNat ≤ 90
    · rw [if_pos hcond] at h
      have hb : ∀ n, n < 91 → 65 ≤ n → ¬ (Char.ofNat (n + 32) = '\n') := by decide
      exact absurd h (hb c.toNat (Nat.lt_succ_of_le hcond.2) hcond.1)
    · rwa [if_neg hcond] at h
  · intro h
    subst h
    decide

theorem rderiv_case_congr (r : RE) {a b : Char} (h : a.toLower = b.toLower) :
    rderiv r a = rderiv r b := by
  induction r with
  | emptyLang => rfl
  | eps => rfl
  | chr c => simp [rderiv, h]
  | dot =>
    have hiff : a = '\n' ↔ b = '\n' := by
      constructor
      · intro ha
        subst ha
        apply toLower_eq_newline.mp
        rw [← h]
        decide
      · intro hb
        subst hb
        apply toLower_eq_newline.mp
        rw [h]
        decide
    by_cases ha : a = '\n'
    · have hbn : b = '\n' := hiff.mp ha
      simp [rderiv, ha, hbn]
    · have hbn : ¬ b = '\n' := fun hb => ha (hiff.mpr hb)
      simp [rderiv, ha, hbn]
  | alt r s ihr ihs => simp [rderiv, ihr, ihs]
  | cat r s ihr ihs => simp [rderiv, ihr, ihs]
  | star r ihr => simp [rderiv, ihr]

theorem foldl_rderiv_case_congr :
    ∀ (cs ds : List Char), cs.map Char.toLower = ds.map Char.toLower →
      ∀ r, cs.foldl rderiv r = ds.foldl rderiv r := by
  intro cs
  induction cs with
  | nil =>
    intro ds h r
    cases ds with
    | nil => rfl
    | cons d ds' => simp at h
  | cons c cs ih =>
    intro ds h r
    cases ds with
    | nil => simp at h
    | cons d ds' =>
      simp only [List.map_cons, List.cons.injEq] at h
      rw [List.foldl_cons, List.foldl_cons, rderiv_case_congr r h.1]
      exact ih ds' h.2 _

theorem reMatchList_case_congr {cs ds : List Char}
    (h : cs.map Char.toLower = ds.map Char.toLower) (r : RE) :
    reMatchList r cs = reMatchList r ds := by
  unfold reMatchList
  rw [foldl_rderiv_case_congr cs ds h r]

theorem addPatterns_ok_forall2 {strings : List String} {pats : List RE}
    (h : addPatterns strings = .ok pats) :
    List.Forall₂ (fun s r => parseRE s = some r) strings pats := by
  induction strings generalizing pats with
  | nil =>
    simp only [addPatterns, Except.ok.injEq] at h
    subst h
    exact List.Forall₂.nil
  | cons s rest ih =>
    unfold addPatterns at h
    cases hp : parseRE s with
    | none => rw [hp] at h; simp at h
    | some r =>
      rw [hp] at h
      cases hrest : addPatterns rest with
      | error e => rw [hrest] at h; simp [Except.map] at h
      | ok rs =>
        rw [hrest] at h
        simp only [Except.map, Except.ok.injEq] at h
        subst h
        exact List.Forall₂.cons hp (ih hrest)

theorem compileRegexSet_ok_anchor {strings : List String} {set : RE2Set}
    (h : compileRegexSet strings = .ok set) : set.anchor = .anchorBoth := by
  unfold compileRegexSet at h
  cases hap : addPatterns strings with
  | error e => rw [hap] at h; simp [Except.map] at h
  | ok pats =>
    rw [hap] at h
    simp only [Except.map, Except.ok.injEq] at h
    subst h
    rfl

theorem compileRegexSet_ok_patterns {strings : List String} {set : RE2Set}
    (hne : strings ≠ []) (h : compileRegexSet strings = .ok set) :
    ∃ pats, addPatterns strings = .ok pats ∧ set.patterns = pats := by
  unfold compileRegexSet at h
  have hempty : strings.isEmpty = false := by
    cases strings with
    | nil => exact absurd rfl hne
    | cons a as => rfl
  rw [hempty] at h
  cases hap : addPatterns strings with
  | error e => rw [hap] at h; simp [Except.map] at h
  | ok pats =>
    rw [hap] at h
    simp only [Except.map, Except.ok.injEq] at h
    subst h
    exact ⟨pats, rfl, by simp⟩

theorem addPatterns_error_first {strings : List String} {s : String}
    (hs : s ∈ strings) (hbad : parseRE s = none) :
    ∃ t, t ∈ strings ∧ parseRE t = none ∧
      addPatterns strings = .error (.invalidArgument ("Failed to add regex: " ++ t)) := by
  induction strings with
  | nil => cases hs
  | cons a rest ih =>
    cases hp : parseRE a with
    | none =>
      refine ⟨a, by simp, hp, ?_⟩
      unfold addPatterns
      rw [hp]
    | some r =>
      have hs' : s ∈ rest := by
        rcases List.mem_cons.mp hs with h1 | h1
        · subst h1; rw [hbad] at hp; cases hp
        · exact h1
      obtain ⟨t, ht, htn, he⟩ := ih hs'
      refine ⟨t, by simp [ht], htn, ?_⟩
      unfold addPatterns
      rw [hp, he]
      rfl

theorem re2SetMatch_anchorBoth {set : RE2Set} (h : set.anchor = .anchorBoth)
    (key : String) :
    re2SetMatch set key = set.patterns.any (fun r => reMatchList r key.data) := by
  unfold re2SetMatch
  rw [h]
  simp only [matchMode]

theorem any_iff_exists_pattern {strings : List String} {pats : List RE}
    (hf : List.Forall₂ (fun s r => parseRE s = some r) strings pats) (key : String) :
    (pats.any (fun r => reMatchList r key.data) = true) ↔
      ∃ p ∈ strings, ∃ r, parseRE p = some r ∧ reMatchList r key.data = true := by
  induction hf with
  | nil => simp
  | @cons s r ss rs hsr _ ih =>
    simp only [List.any_cons, Bool.or_eq_true, ih, List.mem_cons]
    constructor
    · rintro (h1 | ⟨p, hp, rr, hrr, hm⟩)
      · exact ⟨s, Or.inl rfl, r, hsr, h1⟩
      · exact ⟨p, Or.inr hp, rr, hrr, hm⟩
    · rintro ⟨p, hp | hp, rr, hrr, hm⟩
      · subst hp
        rw [hsr] at hrr
        cases hrr
        exact Or.inl hm
      · exact Or.inr ⟨p, hp, rr, hrr, hm⟩

theorem normalizeArea_id (a : AreaConfig) : (normalizeArea a).area_id = a.area_id := by
  unfold normalizeArea
  split <;> rfl

theorem processAreas_ok_shape {pol : Option (List String)} :
    ∀ (as : List AreaConfig) (amap0 : List (String × AreaConfig))
      {out : List AreaConfig × List (String × AreaConfig)},
      processAreas pol as amap0 = .ok out →
      out.fst = as.map normalizeArea ∧
      out.snd = amap0 ++ (as.map normalizeArea).map (fun a => (a.area_id, a)) := by
  intro as
  induction as with
  | nil =>
    intro amap0 out h
    simp only [processAreas, Except.ok.injEq] at h
    subst h
    simp
  | cons a0 rest ih =>
    intro amap0 out h
    unfold processAreas at h
    obtain ⟨u1, h1, h⟩ := exceptBind_ok h
    obtain ⟨u2, h2, h⟩ := exceptBind_ok h
    obtain ⟨u3, h3, h⟩ := exceptBind_ok h
    obtain ⟨u4, h4, h⟩ := exceptBind_ok h
    obtain ⟨u5, h5, h⟩ := exceptBind_ok h
    obtain ⟨pr, hrec, h⟩ := exceptBind_ok h
    simp only [Except.ok.injEq] at h
    subst h
    obtain ⟨hfst, hsnd⟩ := ih _ hrec
    constructor
    · simp [hfst]
    · simp [hsnd, List.append_assoc]

theorem processAreas_ok_nodup {pol : Option (List String)} :
    ∀ (as : List AreaConfig) (amap0 : List (String × AreaConfig))
      {out : List AreaConfig × List (String × AreaConfig)},
      processAreas pol as amap0 = .ok out →
      (amap0.map Prod.fst).Nodup →
      (out.snd.map Prod.fst).Nodup := by
  intro as
  induction as with
  | nil =>
    intro amap0 out h hnd
    simp only [processAreas, Except.ok.injEq] at h
    subst h
    exact hnd
  | cons a0 rest ih =>
    intro amap0 out h hnd
    unfold processAreas at h
    obtain ⟨u1, h1, h⟩ := exceptBind_ok h
    obtain ⟨u2, h2, h⟩ := exceptBind_ok h
    obtain ⟨u3, h3, h⟩ := exceptBind_ok h
    obtain ⟨u4, h4, h⟩ := exceptBind_ok h
    obtain ⟨u5, h5, h⟩ := exceptBind_ok h
    obtain ⟨pr, hrec, h⟩ := exceptBind_ok h
    simp only [Except.ok.injEq] at h
    subst h
    have hguard := guardCfg_ok h2
    have hnotin : (normalizeArea a0).area_id ∉ amap0.map Prod.fst := by
      intro hmem
      obtain ⟨kv, hkv, hid⟩ := List.mem_map.mp hmem
      have : amap0.any (fun kv => kv.fst == (normalizeArea a0).area_id) = true :=
        List.any_eq_true.mpr ⟨kv, hkv, by simp [hid]⟩
      rw [hguard] at this
      cases this
    have hnd' : ((amap0 ++ [((normalizeArea a0).area_id, normalizeArea a0)]).map Prod.fst).Nodup := by
      rw [List.map_append]
      apply List.Nodup.append hnd (by simp)
      intro x hx hy
      simp only [List.map_cons, List.map_nil, List.mem_singleton] at hy
      subst hy
      exact hnotin hx
    have hres := ih _ hrec hnd'
    exact hres

theorem exceptBind_error {α β : Type} {e : Except ConfigErr α}
    {f : α → Except ConfigErr β} {err : ConfigErr} (h : e >>= f = .error err) :
    e = .error err ∨ ∃ a, e = .ok a ∧ f a = .error err := by
  cases e with
  | ok a => exact Or.inr ⟨a, rfl, h⟩
  | error e' =>
    left
    simpa [Bind.bind, Except.bind] using h

theorem checkImportPolicy_error {pol : Option (List String)} {a : AreaConfig}
    {e : ConfigErr} (h : checkImportPolicy pol a = .error e) :
    ∃ msg, e = .invalidArgument msg := by
  unfold checkImportPolicy at h
  repeat' split at h
  all_goals try simp at h
  all_goals exact ⟨_, h.symm⟩

theorem guardCfg_error {b : Bool} {msg : String} {e : ConfigErr}
    (h : guardCfg b (.invalidArgument msg) = .error e) :
    ∃ m, e = .invalidArgument m := by
  unfold guardCfg at h
  split at h
  · simp only [Except.error.injEq] at h
    exact ⟨_, h.symm⟩
  · simp at h

theorem checkNodeSegmentLabelConfig_error {a : AreaConfig} {e : ConfigErr}
    (h : checkNodeSegmentLabelConfig a = .error e) :
    ∃ msg, e = .invalidArgument msg := by
  unfold checkNodeSegmentLabelConfig at h
  repeat' split at h
  all_goals try simp at h
  all_goals exact ⟨_, h.symm⟩

theorem checkAdjacencyLabelConfig_error {a : AreaConfig} {e : ConfigErr}
    (h : checkAdjacencyLabelConfig a = .error e) :
    ∃ msg, e = .invalidArgument msg := by
  unfold checkAdjacencyLabelConfig at h
  repeat' split at h
  all_goals try simp at h
  all_goals exact ⟨_, h.symm⟩

theorem checkPrependLabelConfig_error {a : AreaConfig} {e : ConfigErr}
    (h : checkPrependLabelConfig a = .error e) :
    ∃ msg, e = .invalidArgument msg := by
  unfold checkPrependLabelConfig at h
  repeat' split at h
  all_goals try simp at h
  all_goals exact ⟨_, h.symm⟩

theorem processAreas_error_inval {pol : Option (List String)} :
    ∀ (as : List AreaConfig) (amap0 : List (String × AreaConfig)) {e : ConfigErr},
      processAreas pol as amap0 = .error e → ∃ msg, e = .invalidArgument msg := by
  intro as
  induction as with
  | nil => intro amap0 e h; simp [processAreas] at h
  | cons a0 rest ih =>
    intro amap0 e h
    unfold processAreas at h
    rcases exceptBind_error h with h1 | ⟨u1, _, h⟩
    · exact checkImportPolicy_error h1
    rcases exceptBind_error h with h2 | ⟨u2, _, h⟩
    · exact guardCfg_error h2
    rcases exceptBind_error h with h3 | ⟨u3, _, h⟩
    · exact checkNodeSegmentLabelConfig_error h3
    rcases exceptBind_error h with h4 | ⟨u4, _, h⟩
    · exact checkAdjacencyLabelConfig_error h4
    rcases exceptBind_error h with h5 | ⟨u5, _, h⟩
    · exact checkPrependLabelConfig_error h5
    rcases exceptBind_error h with h6 | ⟨pr, _, h⟩
    · exact ih _ h6
    · simp at h

theorem map_area_id_normalize (l : List AreaConfig) :
    (l.map normalizeArea).map (fun a => a.area_id) = l.map (fun a => a.area_id) := by
  induction l with
  | nil => rfl
  | cons a l ih => simp [normalizeArea_id, ih]

theorem populateAreaConfig_ok_elim {cfg : OpenrConfig}
    {pr : OpenrConfig × List (String × AreaConfig)}
    (h : populateAreaConfig cfg = .ok pr) :
    pr.fst.areas =
      ((if cfg.areas.isEmpty then [defaultAreaConfig] else cfg.areas).map normalizeArea) ∧
    pr.snd = pr.fst.areas.map (fun a => (a.area_id, a)) ∧
    (pr.snd.map Prod.fst).Nodup ∧
    pr.fst = { cfg with areas := pr.fst.areas } := by
  unfold populateAreaConfig at h
  obtain ⟨q, hq, h⟩ := exceptBind_ok h
  simp only [Except.ok.injEq] at h
  obtain ⟨hfst, hsnd⟩ := processAreas_ok_shape _ _ hq
  have hnd := processAreas_ok_nodup _ _ hq (by simp)
  subst h
  refine ⟨by simpa using hfst, ?_, by simpa using hnd, by simp⟩
  simp only []
  rw [hsnd, hfst]
  simp

theorem populateInternalDb_ok_elim {fs : List String} {cfg0 : OpenrConfig}
    {st : ConfigState} (h : populateInternalDb fs cfg0 = .ok st) :
    ∃ cfg amap pap cfg2,
      populateAreaConfig cfg0 = .ok (cfg, amap) ∧
      (validPrefixForwardingType cfg.prefix_forwarding_type &&
        validPrefixForwardingAlgorithm cfg.prefix_forwarding_algorithm) = true ∧
      (cfg.prefix_forwarding_algorithm == kPrefixForwardingAlgoKsp2EdEcmp &&
        cfg.prefix_forwarding_type != kPrefixForwardingTypeSrMpls) = false ∧
      (match cfg.ip_tos with
        | some t => decide (t < 0) || decide (256 ≤ t)
        | none => false) = false ∧
      (cfg.enable_bgp_peering && cfg.enable_vip_service) = false ∧
      (cfg.enable_watchdog && cfg.watchdog_config.isNone) = false ∧
      decide (cfg.route_delete_delay_ms < 0) = false ∧
      checkKvStoreConfig cfg.kvstore_config = .ok () ∧
      checkDecisionConfig cfg.decision_config = .ok () ∧
      checkSparkConfig cfg.spark_config = .ok () ∧
      checkMonitorConfig cfg.monitor_config = .ok () ∧
      checkLinkMonitorConfig cfg.link_monitor_config = .ok () ∧
      checkSegmentRoutingConfig cfg.segment_routing_config = .ok () ∧
      (cfg.enable_prefix_allocation = true →
        decide (1 < amap.length) = false ∧ checkPrefixAllocationConfig cfg = .ok pap) ∧
      (cfg.enable_prefix_allocation = false → pap = none) ∧
      checkVipServiceConfig cfg = .ok () ∧
      checkBgpPeeringConfig cfg = .ok cfg2 ∧
      (cfg2.enable_secure_thrift_server = true →
        checkThriftServerConfig fs cfg2.thrift_server = .ok ()) ∧
      st = { config :=
              (if cfg2.eor_time_s.isNone then
                { cfg2 with eor_time_s := some (3 * cfg2.spark_config.keepalive_time_s) }
              else cfg2)
             areaConfigs := amap
             prefixAllocationParams := pap } := by
  unfold populateInternalDb at h
  obtain ⟨x, hx, h⟩ := exceptBind_ok h
  obtain ⟨cfg, amap⟩ := x
  obtain ⟨u1, hg1, h⟩ := exceptBind_ok h
  obtain ⟨u2, hg2, h⟩ := exceptBind_ok h
  obtain ⟨u3, hg3, h⟩ := exceptBind_ok h
  obtain ⟨u4, hg4, h⟩ := exceptBind_ok h
  obtain ⟨u5, hg5, h⟩ := exceptBind_ok h
  obtain ⟨u6, hg6, h⟩ := exceptBind_ok h
  obtain ⟨u7, hkv, h⟩ := exceptBind_ok h
  obtain ⟨u8, hdec, h⟩ := exceptBind_ok h
  obtain ⟨u9, hspark, h⟩ := exceptBind_ok h
  obtain ⟨u10, hmon, h⟩ := exceptBind_ok h
  obtain ⟨u11, hlm, h⟩ := exceptBind_ok h
  obtain ⟨u12, hsr, h⟩ := exceptBind_ok h
  obtain ⟨pap, hpap, h⟩ := exceptBind_ok h
  obtain ⟨u13, hvip, h⟩ := exceptBind_ok h
  obtain ⟨cfg2, hbgp, h⟩ := exceptBind_ok h
  obtain ⟨u14, hts, h⟩ := exceptBind_ok h
  simp only [Except.ok.injEq] at h
  cases u7; cases u8; cases u9; cases u10; cases u11; cases u12; cases u13
  refine ⟨cfg, amap, pap, cfg2, hx, ?_, ?_, ?_, ?_, ?_, ?_, hkv, hdec, hspark,
    hmon, hlm, hsr, ?_, ?_, hvip, hbgp, ?_, h.symm⟩
  · have := guardCfg_ok hg1
    simpa using this
  · exact guardCfg_ok hg2
  · exact guardCfg_ok hg3
  · exact guardCfg_ok hg4
  · exact guardCfg_ok hg5
  · exact guardCfg_ok hg6
  · intro hen
    rw [hen] at hpap
    simp only [if_true] at hpap
    obtain ⟨ug, hguard, hrest⟩ := exceptBind_ok hpap
    exact ⟨guardCfg_ok hguard, hrest⟩
  · intro hen
    rw [hen] at hpap
    simp only [Bool.false_eq_true, if_false, Except.ok.injEq] at hpap
    exact hpap.symm
  · intro hsec
    rw [hsec] at hts
    simp only [if_true] at hts
    cases u14
    exact hts

theorem bgpTranslationStep_ok_eq {c c' : OpenrConfig}
    (h : bgpTranslationStep c = .ok c') : c' = c := by
  unfold bgpTranslationStep at h
  repeat' split at h
  all_goals try simp at h
  all_goals exact h.symm

theorem fillBgpTranslation_shape (cfg : OpenrConfig) :
    fillBgpTranslation cfg = cfg ∨
      fillBgpTranslation cfg =
        { cfg with bgp_translation_config := some defaultBgpTranslationConfig } := by
  unfold fillBgpTranslation
  split
  · exact Or.inr rfl
  · exact Or.inl rfl

theorem fillBgpTranslation_idem (cfg : OpenrConfig) :
    fillBgpTranslation (fillBgpTranslation cfg) = fillBgpTranslation cfg := by
  unfold fillBgpTranslation
  split
  · simp
  · rfl

theorem bgpPeersOf_fill (cfg : OpenrConfig) :
    bgpPeersOf (fillBgpTranslation cfg) = bgpPeersOf cfg := by
  rcases fillBgpTranslation_shape cfg with hf | hf
  · rw [hf]
  · rw [hf]
    simp [bgpPeersOf]

theorem checkBgpPeeringConfig_ok_shape {cfg cfg2 : OpenrConfig}
    (h : checkBgpPeeringConfig cfg = .ok cfg2) :
    cfg2 = cfg ∨
      cfg2 = { cfg with bgp_translation_config := some defaultBgpTranslationConfig } := by
  unfold checkBgpPeeringConfig at h
  split at h
  · simp at h
  · split at h
    · simp at h
    · have heq := bgpTranslationStep_ok_eq h
      subst heq
      exact fillBgpTranslation_shape cfg

theorem checkBgpPeeringConfig_idem {cfg cfg2 : OpenrConfig}
    (h : checkBgpPeeringConfig cfg = .ok cfg2) :
    checkBgpPeeringConfig cfg2 = .ok cfg2 := by
  unfold checkBgpPeeringConfig at h
  by_cases hc1 : (cfg.enable_bgp_peering && cfg.bgp_config.isNone) = true
  · rw [if_pos hc1] at h
    exact absurd h (by simp)
  · rw [if_neg hc1] at h
    by_cases hc2 : ((bgpPeersOf cfg).any (fun peer =>
        follyIsLoopback peer.peer_addr && peer.add_path == some kAddPathReceive &&
          !cfg.enable_segment_routing)) = true
    · rw [if_pos hc2] at h
      exact absurd h (by simp)
    · rw [if_neg hc2] at h
      have heq := bgpTranslationStep_ok_eq h
      subst heq
      have hen : (fillBgpTranslation cfg).enable_bgp_peering = cfg.enable_bgp_peering := by
        rcases fillBgpTranslation_shape cfg with hf | hf <;> rw [hf]
      have hbc : (fillBgpTranslation cfg).bgp_config = cfg.bgp_config := by
        rcases fillBgpTranslation_shape cfg with hf | hf <;> rw [hf]
      have hsr : (fillBgpTranslation cfg).enable_segment_routing = cfg.enable_segment_routing := by
        rcases fillBgpTranslation_shape cfg with hf | hf <;> rw [hf]
      unfold checkBgpPeeringConfig
      rw [if_neg (by rw [hen, hbc]; exact hc1)]
      rw [if_neg (by rw [bgpPeersOf_fill, hsr]; exact hc2)]
      rw [fillBgpTranslation_idem]
      exact h

theorem bgpTranslationStep_eor (c : OpenrConfig) (x : Option Int) :
    bgpTranslationStep { c with eor_time_s := x } =
      (bgpTranslationStep c).map (fun d => { d with eor_time_s := x }) := by
  unfold bgpTranslationStep
  repeat' split
  all_goals simp_all [Except.map]

theorem fillBgpTranslation_eor (c : OpenrConfig) (x : Option Int) :
    fillBgpTranslation { c with eor_time_s := x } =
      { fillBgpTranslation c with eor_time_s := x } := by
  unfold fillBgpTranslation
  by_cases hb : (c.enable_bgp_peering && c.bgp_translation_config.isNone) = true
  · rw [if_pos (by simpa using hb), if_pos hb]
  · rw [if_neg (by simpa using hb), if_neg hb]

theorem checkBgpPeeringConfig_eor (cfg : OpenrConfig) (x : Option Int) :
    checkBgpPeeringConfig { cfg with eor_time_s := x } =
      (checkBgpPeeringConfig cfg).map (fun d => { d with eor_time_s := x }) := by
  unfold checkBgpPeeringConfig
  by_cases hc1 : (cfg.enable_bgp_peering && cfg.bgp_config.isNone) = true
  · rw [if_pos (by simpa using hc1), if_pos hc1]
    rfl
  · rw [if_neg (by simpa using hc1), if_neg hc1]
    by_cases hc2 : ((bgpPeersOf cfg).any (fun peer =>
        follyIsLoopback peer.peer_addr && peer.add_path == some kAddPathReceive &&
          !cfg.enable_segment_routing)) = true
    · rw [if_pos ?side, if_pos hc2]
      · rfl
      · case side =>
        have : bgpPeersOf { cfg with eor_time_s := x } = bgpPeersOf cfg := by
          simp [bgpPeersOf]
        rw [this]
        simpa using hc2
    · rw [if_neg ?side2, if_neg hc2]
      · rw [fillBgpTranslation_eor]
        exact bgpTranslationStep_eor _ x
      · case side2 =>
        have : bgpPeersOf { cfg with eor_time_s := x } = bgpPeersOf cfg := by
          simp [bgpPeersOf]
        rw [this]
        simpa using hc2

theorem checkVipServiceConfig_congr {cfg cfg' : OpenrConfig}
    (h1 : cfg'.enable_vip_service = cfg.enable_vip_service)
    (h2 : cfg'.vip_service_config = cfg.vip_service_config)
    (h3 : cfg'.area_policies = cfg.area_policies) :
    checkVipServiceConfig cfg' = checkVipServiceConfig cfg := by
  unfold checkVipServiceConfig
  rw [h1, h2, h3]

theorem checkPrefixAllocationConfig_congr {cfg cfg' : OpenrConfig}
    (h1 : cfg'.prefix_allocation_config = cfg.prefix_allocation_config)
    (h2 : cfg'.enable_v4 = cfg.enable_v4) :
    checkPrefixAllocationConfig cfg' = checkPrefixAllocationConfig cfg := by
  unfold checkPrefixAllocationConfig
  rw [h1, h2]

theorem checkKvStoreConfig_ttl_err {k : KvstoreConfig} (h : k.key_ttl_ms = kTtlInfinity) :
    ∃ msg, checkKvStoreConfig k = .error (.outOfRange msg) := by
  unfold checkKvStoreConfig
  repeat' split
  all_goals first
    | exact ⟨_, rfl⟩
    | simp_all

theorem checkKvStoreConfig_flood_err {k : KvstoreConfig} {fr : KvstoreFloodRate}
    (hfr : k.flood_rate = some fr)
    (hbad : fr.flood_msg_per_sec ≤ 0 ∨ fr.flood_msg_burst_size ≤ 0) :
    ∃ msg, checkKvStoreConfig k = .error (.outOfRange msg) := by
  by_cases h1 : fr.flood_msg_per_sec ≤ 0
  · refine ⟨"kvstore flood_msg_per_sec should be > 0", ?_⟩
    unfold checkKvStoreConfig
    rw [hfr]
    simp [h1]
  · have h2 : fr.flood_msg_burst_size ≤ 0 := hbad.resolve_left h1
    refine ⟨"kvstore flood_msg_burst_size should be > 0", ?_⟩
    unfold checkKvStoreConfig
    rw [hfr]
    simp [h1, h2]

theorem checkKvStoreConfig_flood_pos {k : KvstoreConfig} {fr : KvstoreFloodRate}
    (hfr : k.flood_rate = some fr)
    (h1 : 0 < fr.flood_msg_per_sec) (h2 : 0 < fr.flood_msg_burst_size) :
    checkKvStoreConfig k = checkKvStoreConfig { k with flood_rate := none } := by
  unfold checkKvStoreConfig
  rw [hfr]
  simp [not_le.mpr h1, not_le.mpr h2]

/-! ## Claim theorems -/

/-- C1, counterexample: the claim that "the compiled pattern set built from
an empty list of pattern strings matches any input string" is false —
`compileRegexSet []` deliberately compiles the unmatchable pattern `"a^"`,
and the resulting set does not match the concrete key `"key1"`. -/
theorem claim_C1_counterexample :
    (compileRegexSet []).map (fun s => re2SetMatch s "key1") = .ok false := by
  decide

/-- C1 (amended): a filter whose key-pattern set and originator set are
empty matches every entry at the filter-evaluation level, but the compiled
pattern set `compileRegexSet` builds from an empty list is deliberately
unmatchable: it matches no input string at all (the match-everything
behaviour of an empty filter is implemented by the filter logic, not by
the compiled set). -/
theorem claim_C1_empty_filter :
    (∀ oper key orig, filterMatches [] [] oper key orig = true) ∧
    (∀ set key, compileRegexSet [] = .ok set → re2SetMatch set key = false) := by
  constructor
  · intro oper key orig
    cases oper <;> rfl
  · intro set key h
    have hc : compileRegexSet [] = Except.ok ⟨Anchor.anchorBoth, [RE.emptyLang]⟩ := by
      decide
    rw [hc] at h
    simp only [Except.ok.injEq] at h
    subst h
    simp [re2SetMatch, matchMode, reMatchList_emptyLang]

/-- C1, witness for `claim_C1_empty_filter` at concrete inputs. -/
theorem claim_C1_witness :
    filterMatches [] [] FilterOperator.AND "key1" "node1" = true ∧
    re2SetMatch ⟨Anchor.anchorBoth, [RE.emptyLang]⟩ "key1" = false :=
  ⟨claim_C1_empty_filter.1 FilterOperator.AND "key1" "node1",
   claim_C1_empty_filter.2 ⟨Anchor.anchorBoth, [RE.emptyLang]⟩ "key1" (by decide)⟩

/-- C2: the filter `keys = ["key3"], originatorIds = ["node3","node33"],
combinator = AND`, evaluated (per the spec-modelled FilterEngine matching)
against the store `key3 -> node3, key33 -> node33, key333 -> node33`,
matches all three entries, and the key pattern `"key3"` prefix-matches
`"key33"` and `"key333"`. -/
theorem claim_C2_filter_scenario :
    kvStoreScenario.filter (fun kv =>
        filterMatches ["key3"] ["node3", "node33"] FilterOperator.AND kv.fst kv.snd) =
      kvStoreScenario ∧
    filterMatches ["key3"] ["node3", "node33"] FilterOperator.AND "key3" "node3" = true ∧
    filterMatches ["key3"] ["node3", "node33"] FilterOperator.AND "key33" "node33" = true ∧
    filterMatches ["key3"] ["node3", "node33"] FilterOperator.AND "key333" "node33" = true ∧
    "key3".data.isPrefixOf "key33".data = true ∧
    "key3".data.isPrefixOf "key333".data = true := by
  decide

/-- C3: every pattern handed to `compileRegexSet` is compiled with
`ANCHOR_BOTH`, so for a non-empty pattern list a key matches the compiled
set exactly when the entire key matches one of the patterns; concretely,
the compiled `"key3"` matches `"key3"` but not its extension `"key33"`,
even though a start-anchored (prefix) interpretation of the same pattern
would match it. -/
theorem claim_C3_anchor_both_full_match :
    ∀ (strings : List String) (set : RE2Set) (key : String),
      compileRegexSet strings = .ok set → strings ≠ [] →
      (set.anchor = Anchor.anchorBoth ∧
        (re2SetMatch set key = true ↔
          ∃ p ∈ strings, ∃ r, parseRE p = some r ∧ reMatchList r key.data = true)) ∧
      ((compileRegexSet ["key3"]).map (fun s => re2SetMatch s "key3") = .ok true ∧
       (compileRegexSet ["key3"]).map (fun s => re2SetMatch s "key33") = .ok false ∧
       matchMode Anchor.anchorStart
         (RE.cat (.chr 'k') (.cat (.chr 'e') (.cat (.chr 'y') (.chr '3'))))
         "key33".data = true) := by
  intro strings set key hok hne
  refine ⟨⟨compileRegexSet_ok_anchor hok, ?_⟩, by decide, by decide, by decide⟩
  obtain ⟨pats, hap, hp⟩ := compileRegexSet_ok_patterns hne hok
  rw [re2SetMatch_anchorBoth (compileRegexSet_ok_anchor hok), hp]
  exact any_iff_exists_pattern (addPatterns_ok_forall2 hap) key

/-- C3, witness: the theorem applied to the concrete pattern list
`["key3"]` and key `"key33"`. -/
theorem claim_C3_witness :
    ((RE2Set.mk Anchor.anchorBoth
        [RE.cat (.chr 'k') (.cat (.chr 'e') (.cat (.chr 'y') (.chr '3')))]).anchor =
          Anchor.anchorBoth ∧
      (re2SetMatch (RE2Set.mk Anchor.anchorBoth
          [RE.cat (.chr 'k') (.cat (.chr 'e') (.cat (.chr 'y') (.chr '3')))]) "key33" = true ↔
        ∃ p ∈ ["key3"], ∃ r, parseRE p = some r ∧ reMatchList r "key33".data = true)) ∧
    ((compileRegexSet ["key3"]).map (fun s => re2SetMatch s "key3") = .ok true ∧
     (compileRegexSet ["key3"]).map (fun s => re2SetMatch s "key33") = .ok false ∧
     matchMode Anchor.anchorStart
       (RE.cat (.chr 'k') (.cat (.chr 'e') (.cat (.chr 'y') (.chr '3'))))
       "key33".data = true) :=
  claim_C3_anchor_both_full_match ["key3"]
    (RE2Set.mk Anchor.anchorBoth
      [RE.cat (.chr 'k') (.cat (.chr 'e') (.cat (.chr 'y') (.chr '3')))])
    "key33" (by decide) (by decide)

/-- C6: if any pattern in the list is rejected by the regex engine,
`compileRegexSet` raises `std::invalid_argument` naming an offending
pattern and never returns a (partial) pattern set. -/
theorem claim_C6_invalid_pattern_throws :
    ∀ (strings : List String) (s : String),
      s ∈ strings → parseRE s = none →
      (∃ t, t ∈ strings ∧ parseRE t = none ∧
        compileRegexSet strings =
          .error (.invalidArgument ("Failed to add regex: " ++ t))) ∧
      ∀ set, compileRegexSet strings ≠ .ok set := by
  intro strings s hs hbad
  obtain ⟨t, ht, htn, he⟩ := addPatterns_error_first hs hbad
  have hc : compileRegexSet strings =
      .error (.invalidArgument ("Failed to add regex: " ++ t)) := by
    unfold compileRegexSet
    rw [he]
    rfl
  refine ⟨⟨t, ht, htn, hc⟩, ?_⟩
  intro set hset
  rw [hc] at hset
  exact absurd hset (by simp)

/-- C6, witness: the list `["key.*", "*"]` contains the invalid pattern
`"*"` (a repetition operator with no argument), so compilation fails. -/
theorem claim_C6_witness :
    (∃ t, t ∈ ["key.*", "*"] ∧ parseRE t = none ∧
      compileRegexSet ["key.*", "*"] =
        .error (.invalidArgument ("Failed to add regex: " ++ t))) ∧
    ∀ set, compileRegexSet ["key.*", "*"] ≠ .ok set :=
  claim_C6_invalid_pattern_throws ["key.*", "*"] "*" (by decide) (by decide)

/-- C8: every set compiled by `compileRegexSet` matches case-insensitively
(`set_case_sensitive(false)`): two keys that agree after lower-casing every
character are matched identically, so a key matches iff any of its case
variants matches. -/
theorem claim_C8_case_insensitive :
    ∀ (strings : List String) (set : RE2Set) (k q : String),
      compileRegexSet strings = .ok set →
      k.data.map Char.toLower = q.data.map Char.toLower →
      re2SetMatch set k = re2SetMatch set q := by
  intro strings set k q hok hcase
  rw [re2SetMatch_anchorBoth (compileRegexSet_ok_anchor hok),
    re2SetMatch_anchorBoth (compileRegexSet_ok_anchor hok)]
  have hall : ∀ r, reMatchList r k.data = reMatchList r q.data := fun r =>
    reMatchList_case_congr hcase r
  simp only [hall]

/-- C8, witness: the compiled `"key3"` set treats `"KEY3"` and `"key3"`
identically. -/
theorem claim_C8_witness :
    re2SetMatch ⟨Anchor.anchorBoth,
      [RE.cat (.chr 'k') (.cat (.chr 'e') (.cat (.chr 'y') (.chr '3')))]⟩ "KEY3" =
    re2SetMatch ⟨Anchor.anchorBoth,
      [RE.cat (.chr 'k') (.cat (.chr 'e') (.cat (.chr 'y') (.chr '3')))]⟩ "key3" :=
  claim_C8_case_insensitive ["key3"]
    ⟨Anchor.anchorBoth, [RE.cat (.chr 'k') (.cat (.chr 'e') (.cat (.chr 'y') (.chr '3')))]⟩
    "KEY3" "key3" (by decide) (by decide)

theorem populateAreaConfig_error_inval {cfg : OpenrConfig} {e : ConfigErr}
    (h : populateAreaConfig cfg = .error e) : ∃ msg, e = .invalidArgument msg := by
  unfold populateAreaConfig at h
  rcases exceptBind_error h with h1 | ⟨pr, _, h2⟩
  · exact processAreas_error_inval _ _ h1
  · simp at h2

/-- C4: when a KvStore flood rate is configured, validation rejects a
non-positive `flood_msg_per_sec` or `flood_msg_burst_size` with an
out-of-range error — and the whole `populateInternalDb` pipeline can then
never succeed — while positive values make the flood-rate check pass (the
result is exactly that of the same config without a flood rate, i.e. the
remaining TTL check). -/
theorem claim_C4_flood_rate_validation :
    ∀ (k : KvstoreConfig) (fr : KvstoreFloodRate),
      k.flood_rate = some fr →
      ((fr.flood_msg_per_sec ≤ 0 ∨ fr.flood_msg_burst_size ≤ 0) →
        (∃ msg, checkKvStoreConfig k = .error (.outOfRange msg)) ∧
        (∀ fs cfg0 st, cfg0.kvstore_config = k →
          populateInternalDb fs cfg0 ≠ .ok st)) ∧
      (0 < fr.flood_msg_per_sec → 0 < fr.flood_msg_burst_size →
        checkKvStoreConfig k = checkKvStoreConfig { k with flood_rate := none }) := by
  intro k fr hfr
  constructor
  · intro hbad
    obtain ⟨msg, herr⟩ := checkKvStoreConfig_flood_err hfr hbad
    refine ⟨⟨msg, herr⟩, ?_⟩
    intro fs cfg0 st hk hok
    obtain ⟨cfg, amap, pap, cfg2, harea, _, _, _, _, _, _, hkv, _⟩ :=
      populateInternalDb_ok_elim hok
    obtain ⟨_, _, _, hshape⟩ := populateAreaConfig_ok_elim harea
    have hkc : cfg.kvstore_config = cfg0.kvstore_config := by
      have hcg := congrArg OpenrConfig.kvstore_config hshape
      exact hcg
    rw [hkc, hk, herr] at hkv
    exact absurd hkv (by simp)
  · intro h1 h2
    exact checkKvStoreConfig_flood_pos hfr h1 h2

/-- C4, witness: a zero `flood_msg_per_sec` is rejected out-of-range, and
a positive flood rate leaves only the TTL check. -/
theorem claim_C4_witness :
    (∃ msg, checkKvStoreConfig
        { key_ttl_ms := 300000,
          flood_rate := some { flood_msg_per_sec := 0, flood_msg_burst_size := 64 } } =
      .error (.outOfRange msg)) ∧
    checkKvStoreConfig
        { key_ttl_ms := 300000,
          flood_rate := some { flood_msg_per_sec := 600, flood_msg_burst_size := 64 } } =
      checkKvStoreConfig
        { key_ttl_ms := 300000, flood_rate := (none : Option KvstoreFloodRate) } :=
  ⟨((claim_C4_flood_rate_validation
      { key_ttl_ms := 300000,
        flood_rate := some { flood_msg_per_sec := 0, flood_msg_burst_size := 64 } }
      { flood_msg_per_sec := 0, flood_msg_burst_size := 64 } rfl).1
      (Or.inl (by decide))).1,
   (claim_C4_flood_rate_validation
      { key_ttl_ms := 300000,
        flood_rate := some { flood_msg_per_sec := 600, flood_msg_burst_size := 64 } }
      { flood_msg_per_sec := 600, flood_msg_burst_size := 64 } rfl).2
      (by decide) (by decide)⟩

/-- C5: a KvStore config whose default `key_ttl_ms` equals the infinite
TTL sentinel is rejected with an out-of-range error, and the whole
`populateInternalDb` pipeline can never succeed on such a configuration. -/
theorem claim_C5_ttl_infinity_rejected :
    ∀ (k : KvstoreConfig),
      k.key_ttl_ms = kTtlInfinity →
      (∃ msg, checkKvStoreConfig k = .error (.outOfRange msg)) ∧
      (∀ fs cfg0 st, cfg0.kvstore_config = k →
        populateInternalDb fs cfg0 ≠ .ok st) := by
  intro k httl
  obtain ⟨msg, herr⟩ := checkKvStoreConfig_ttl_err httl
  refine ⟨⟨msg, herr⟩, ?_⟩
  intro fs cfg0 st hk hok
  obtain ⟨cfg, amap, pap, cfg2, harea, _, _, _, _, _, _, hkv, _⟩ :=
    populateInternalDb_ok_elim hok
  obtain ⟨_, _, _, hshape⟩ := populateAreaConfig_ok_elim harea
  have hkc : cfg.kvstore_config = cfg0.kvstore_config := by
    have hcg := congrArg OpenrConfig.kvstore_config hshape
    exact hcg
  rw [hkc, hk, herr] at hkv
  exact absurd hkv (by simp)

/-- C5, witness: the sentinel TTL is rejected on a concrete config. -/
theorem claim_C5_witness :
    ∃ msg, checkKvStoreConfig { key_ttl_ms := kTtlInfinity, flood_rate := none } =
      .error (.outOfRange msg) :=
  (claim_C5_ttl_infinity_rejected { key_ttl_ms := kTtlInfinity, flood_rate := none } rfl).1

/-- C10: a configuration with two areas sharing an `area_id` is rejected
by `populateAreaConfig` with an invalid-argument error; on success the
`areaConfigs_` map pairs each (normalized) area with its id exactly once,
with no duplicate ids. -/
theorem claim_C10_duplicate_area_ids :
    ∀ (cfg : OpenrConfig),
      (¬ (cfg.areas.map (fun a => a.area_id)).Nodup →
        ∃ msg, populateAreaConfig cfg = .error (.invalidArgument msg)) ∧
      (∀ pr, populateAreaConfig cfg = .ok pr →
        pr.snd = pr.fst.areas.map (fun a => (a.area_id, a)) ∧
        (pr.snd.map Prod.fst).Nodup) := by
  intro cfg
  constructor
  · intro hdup
    cases hres : populateAreaConfig cfg with
    | ok pr =>
      exfalso
      obtain ⟨hareas, hsnd, hnd, _⟩ := populateAreaConfig_ok_elim hres
      have hne : cfg.areas ≠ [] := by
        intro hnil
        apply hdup
        rw [hnil]
        simp
      have hE : cfg.areas.isEmpty = false := by
        cases hc : cfg.areas with
        | nil => exact absurd hc hne
        | cons a l => rfl
      rw [hE] at hareas
      simp only [Bool.false_eq_true, if_false] at hareas
      have hpair : ∀ (l : List AreaConfig),
          (l.map (fun a => (a.area_id, a))).map Prod.fst = l.map (fun a => a.area_id) := by
        intro l
        rw [List.map_map]
        rfl
      have hids : pr.snd.map Prod.fst = cfg.areas.map (fun a => a.area_id) := by
        rw [hsnd, hareas, hpair]
        exact map_area_id_normalize cfg.areas
      rw [hids] at hnd
      exact hdup hnd
    | error e =>
      obtain ⟨msg, hmsg⟩ := populateAreaConfig_error_inval hres
      exact ⟨msg, by rw [hmsg]⟩
  · intro pr hok
    obtain ⟨_, hsnd, hnd, _⟩ := populateAreaConfig_ok_elim hok
    exact ⟨hsnd, hnd⟩

/-- C10, witness: a duplicated `"area1"` is rejected, and the sample
configuration's id map has exactly its single area. -/
theorem claim_C10_witness :
    (∃ msg, populateAreaConfig { sampleConfig with areas := [sampleArea, sampleArea] } =
      .error (.invalidArgument msg)) ∧
    ([("area1", sampleArea)] = sampleConfig.areas.map (fun a => (a.area_id, a)) ∧
      ((([("area1", sampleArea)] : List (String × AreaConfig)).map Prod.fst).Nodup)) :=
  ⟨(claim_C10_duplicate_area_ids { sampleConfig with areas := [sampleArea, sampleArea] }).1
      (by decide),
   (claim_C10_duplicate_area_ids sampleConfig).2
      (sampleConfig, [("area1", sampleArea)]) (by decide)⟩

/-- C9, counterexample: the clause "an empty neighbor-pattern set matches
every neighbor" fails for a neighbor name consisting of a newline — the
substituted match-all pattern `".*"` is compiled with RE2 defaults, where
`.` does not match a newline, so the compiled set rejects `"\n"`. -/
theorem claim_C9_counterexample :
    (compileRegexSet [".*"]).map (fun s => re2SetMatch s "\n") = .ok false := by
  decide

/-- C9 (amended): when the configured area list is empty exactly one
default area with the well-known default id is inserted; every area whose
`neighbor_regexes` is empty has it replaced by the single pattern `".*"`;
and the compiled `".*"` set matches every neighbor name that contains no
newline character (names containing a newline are not matched, since RE2's
`.` does not match newline by default). -/
theorem claim_C9_area_defaults :
    ∀ (cfg : OpenrConfig),
      (cfg.areas = [] →
        populateAreaConfig cfg =
          .ok ({ cfg with areas := [{ defaultAreaConfig with neighbor_regexes := [".*"] }] },
            [(kDefaultArea, { defaultAreaConfig with neighbor_regexes := [".*"] })])) ∧
      (∀ pr, populateAreaConfig cfg = .ok pr →
        pr.fst.areas =
          (if cfg.areas.isEmpty then [defaultAreaConfig] else cfg.areas).map normalizeArea) ∧
      (∀ a, a.neighbor_regexes = [] →
        normalizeArea a = { a with neighbor_regexes := [".*"] }) ∧
      (∀ set name, compileRegexSet [".*"] = .ok set →
        (∀ c ∈ name.data, ¬ c = '\n') → re2SetMatch set name = true) := by
  intro cfg
  refine ⟨?_, ?_, ?_, ?_⟩
  · intro h
    unfold populateAreaConfig
    rw [h]
    rfl
  · intro pr hok
    exact (populateAreaConfig_ok_elim hok).1
  · intro a ha
    unfold normalizeArea
    rw [ha]
    rfl
  · intro set name hok hnl
    have hc : compileRegexSet [".*"] = Except.ok ⟨Anchor.anchorBoth, [RE.star RE.dot]⟩ := by
      decide
    rw [hc] at hok
    simp only [Except.ok.injEq] at hok
    subst hok
    simp only [re2SetMatch, matchMode, List.any_cons, List.any_nil, Bool.or_false]
    exact reMatchList_star_dot hnl

/-- C9, witness: the empty-area sample config gets exactly the default
area with the `".*"` pattern, and the compiled `".*"` set accepts an
ordinary neighbor name. -/
theorem claim_C9_witness :
    populateAreaConfig { sampleConfig with areas := [] } =
      .ok ({ { sampleConfig with areas := [] } with
              areas := [{ defaultAreaConfig with neighbor_regexes := [".*"] }] },
        [(kDefaultArea, { defaultAreaConfig with neighbor_regexes := [".*"] })]) ∧
    re2SetMatch ⟨Anchor.anchorBoth, [RE.star RE.dot]⟩ "rsw001.ftw" = true :=
  ⟨(claim_C9_area_defaults { sampleConfig with areas := [] }).1 rfl,
   (claim_C9_area_defaults sampleConfig).2.2.2
     ⟨Anchor.anchorBoth, [RE.star RE.dot]⟩ "rsw001.ftw" (by decide) (by decide)⟩

/-- C7: `Config` construction is all-or-nothing.  `populateInternalDb`
either succeeds or fails as a whole (no partially-applied state exists in
between), and whenever it succeeds, every validation check holds of the
returned, fully validated configuration state: all section checks pass on
the final config, the BGP peering check accepts it unchanged, the secure
thrift server files exist when required, prefix allocation params are the
validated ones, and the area map is exactly the id-indexed normalized
areas. -/
theorem claim_C7_all_or_nothing :
    ∀ (fs : List String) (cfg0 : OpenrConfig),
      ((∃ st, populateInternalDb fs cfg0 = .ok st) ∨
        (∃ e, populateInternalDb fs cfg0 = .error e)) ∧
      (∀ st, populateInternalDb fs cfg0 = .ok st →
        checkKvStoreConfig st.config.kvstore_config = .ok () ∧
        checkDecisionConfig st.config.decision_config = .ok () ∧
        checkSparkConfig st.config.spark_config = .ok () ∧
        checkMonitorConfig st.config.monitor_config = .ok () ∧
        checkLinkMonitorConfig st.config.link_monitor_config = .ok () ∧
        checkSegmentRoutingConfig st.config.segment_routing_config = .ok () ∧
        checkVipServiceConfig st.config = .ok () ∧
        checkBgpPeeringConfig st.config = .ok st.config ∧
        (st.config.enable_secure_thrift_server = true →
          checkThriftServerConfig fs st.config.thrift_server = .ok ()) ∧
        (st.config.enable_prefix_allocation = true →
          checkPrefixAllocationConfig st.config = .ok st.prefixAllocationParams) ∧
        st.config.areas ≠ [] ∧
        st.areaConfigs = st.config.areas.map (fun a => (a.area_id, a))) := by
  intro fs cfg0
  constructor
  · cases h : populateInternalDb fs cfg0 with
    | ok st => exact Or.inl ⟨st, rfl⟩
    | error e => exact Or.inr ⟨e, rfl⟩
  · intro st hok
    obtain ⟨cfg, amap, pap, cfg2, harea, hg1, hg2, hg3, hg4, hg5, hg6, hkv, hdec,
      hspark, hmon, hlm, hsr2, hpa, hpan, hvip, hbgp, hts, hst⟩ :=
      populateInternalDb_ok_elim hok
    have hc3 : st.config =
        (if cfg2.eor_time_s.isNone then
          { cfg2 with eor_time_s := some (3 * cfg2.spark_config.keepalive_time_s) }
        else cfg2) := by
      rw [hst]
    have hsh := checkBgpPeeringConfig_ok_shape hbgp
    have hform : ∃ tr eor, st.config =
        { cfg with bgp_translation_config := tr, eor_time_s := eor } := by
      rw [hc3]
      rcases hsh with h | h
      · rw [h]
        split
        · exact ⟨_, _, rfl⟩
        · exact ⟨_, _, rfl⟩
      · rw [h]
        split
        · exact ⟨_, _, rfl⟩
        · exact ⟨_, _, rfl⟩
    obtain ⟨tr, eor, hfm⟩ := hform
    obtain ⟨hareas, hsnd2, _, _⟩ := populateAreaConfig_ok_elim harea
    have hareas' : cfg.areas =
        (if cfg0.areas.isEmpty then [defaultAreaConfig] else cfg0.areas).map
          normalizeArea := hareas
    have hsnd' : amap = cfg.areas.map (fun a => (a.area_id, a)) := hsnd2
    refine ⟨?_, ?_, ?_, ?_, ?_, ?_, ?_, ?_, ?_, ?_, ?_, ?_⟩
    · rw [hfm]
      exact hkv
    · rw [hfm]
      exact hdec
    · rw [hfm]
      exact hspark
    · rw [hfm]
      exact hmon
    · rw [hfm]
      exact hlm
    · rw [hfm]
      exact hsr2
    · have hv : checkVipServiceConfig
          { cfg with bgp_translation_config := tr, eor_time_s := eor } =
          checkVipServiceConfig cfg :=
        checkVipServiceConfig_congr rfl rfl rfl
      rw [hfm, hv]
      exact hvip
    · rw [hc3]
      split
      · rw [checkBgpPeeringConfig_eor cfg2
          (some (3 * cfg2.spark_config.keepalive_time_s)),
          checkBgpPeeringConfig_idem hbgp]
        rfl
      · exact checkBgpPeeringConfig_idem hbgp
    · intro hsec
      have hsec2 : cfg2.enable_secure_thrift_server = true := by
        rw [hc3] at hsec
        revert hsec
        split
        · intro hsec
          exact hsec
        · intro hsec
          exact hsec
      have hth : st.config.thrift_server = cfg2.thrift_server := by
        rw [hc3]
        split
        · rfl
        · rfl
      rw [hth]
      exact hts hsec2
    · intro hen
      have hen' : cfg.enable_prefix_allocation = true := by
        rw [hfm] at hen
        exact hen
      obtain ⟨_, hpc⟩ := hpa hen'
      have hcg : checkPrefixAllocationConfig st.config = checkPrefixAllocationConfig cfg := by
        rw [hfm]
        exact checkPrefixAllocationConfig_congr rfl rfl
      have hpp : st.prefixAllocationParams = pap := by
        rw [hst]
      rw [hcg, hpp]
      exact hpc
    · intro hnil
      have hA : st.config.areas = cfg.areas := by rw [hfm]
      rw [hA, hareas'] at hnil
      by_cases hq : cfg0.areas.isEmpty = true
      · rw [if_pos hq] at hnil
        simp at hnil
      · rw [if_neg hq] at hnil
        simp only [List.map_eq_nil_iff] at hnil
        exact hq (by rw [hnil]; rfl)
    · have hac : st.areaConfigs = amap := by rw [hst]
      have hA : st.config.areas = cfg.areas := by rw [hfm]
      rw [hac, hA, hsnd']

/-- C7, witness: the sample configuration validates as a whole, and every
check passes on the resulting state. -/
theorem claim_C7_witness :
    checkKvStoreConfig sampleState.config.kvstore_config = .ok () ∧
    checkDecisionConfig sampleState.config.decision_config = .ok () ∧
    checkSparkConfig sampleState.config.spark_config = .ok () ∧
    checkMonitorConfig sampleState.config.monitor_config = .ok () ∧
    checkLinkMonitorConfig sampleState.config.link_monitor_config = .ok () ∧
    checkSegmentRoutingConfig sampleState.config.segment_routing_config = .ok () ∧
    checkVipServiceConfig sampleState.config = .ok () ∧
    checkBgpPeeringConfig sampleState.config = .ok sampleState.config ∧
    (sampleState.config.enable_secure_thrift_server = true →
      checkThriftServerConfig [] sampleState.config.thrift_server = .ok ()) ∧
    (sampleState.config.enable_prefix_allocation = true →
      checkPrefixAllocationConfig sampleState.config = .ok sampleState.prefixAllocationParams) ∧
    sampleState.config.areas ≠ [] ∧
    sampleState.areaConfigs = sampleState.config.areas.map (fun a => (a.area_id, a)) :=
  (claim_C7_all_or_nothing [] sampleConfig).2 sampleState (by decide)
